import Mathlib

/-!
# Verification of the EDTIA camera-capture / OCR / submission component

Shallow embedding of `src/components/CameraCapture.js` (the full variant with
the submission client and calendar modal).  Pure string helpers are embedded
as Lean functions on `String`; the stateful analysis loop is embedded as
explicit state passing over an `AnalysisState` record together with a
per-tick event trace; the submission client is embedded as a state
transformer over the UI state of the component, parameterised by the outcome the
external HTTP client delivers.
-/

namespace EDTIA

/-! ## Text preprocessing (`preprocessText`, lines 96–101) -/

/-- The character class `\s` of JavaScript regular expressions (ECMAScript
WhiteSpace ∪ LineTerminator), which is also exactly the set of characters
removed by `String.prototype.trim`. -/
def jsWhitespace (c : Char) : Bool :=
  c = '\t' || c = '\n' || c = '\x0b' || c = '\x0c' || c = '\r' || c = ' ' ||
  c = '\u00A0' || c = '\u1680' || ('\u2000' ≤ c && c ≤ '\u200A') ||
  c = '\u2028' || c = '\u2029' || c = '\u202F' || c = '\u205F' ||
  c = '\u3000' || c = '\uFEFF'

/-- Embeds `text.replace(/[oO]/g, ...)`: replace every letter `o` or `O` by `0`. -/
def replaceO (s : String) : String :=
  ⟨s.data.map (fun c => if c = 'o' || c = 'O' then '0' else c)⟩

/-- Embeds the `replace(/\s+/g, ...)` step: remove every whitespace character. -/
def stripWS (s : String) : String :=
  ⟨s.data.filter (fun c => !jsWhitespace c)⟩

/-- Embeds `text.trim()`: drop leading and trailing whitespace. -/
def jsTrim (s : String) : String :=
  ⟨((s.data.dropWhile jsWhitespace).reverse.dropWhile jsWhitespace).reverse⟩

/-- Embeds `preprocessText` (lines 96–101): replace `o`/`O` by `0`, remove all
whitespace, then trim. -/
def preprocessText (s : String) : String :=
  jsTrim (stripWS (replaceO s))

/-! ## Token grammar (`isValidFormat`, lines 177–182) -/

def isDigitChar (c : Char) : Bool := '0' ≤ c && c ≤ '9'

/-- The regular expression `^M[0-9]{1,2}-T[DP]$`, as an anchored matcher on
the character list of the candidate string. -/
def matchesRoomPattern : List Char → Bool
  | ['M', d, '-', 'T', p] => isDigitChar d && (p = 'D' || p = 'P')
  | ['M', d₁, d₂, '-', 'T', p] => isDigitChar d₁ && isDigitChar d₂ && (p = 'D' || p = 'P')
  | _ => false

/-- Embeds `isValidFormat` (lines 177–182): test `/^M[0-9]{1,2}-T[DP]$/`. -/
def isValidFormat (text : String) : Bool :=
  matchesRoomPattern text.data

/-- Modelled from the wording of the spec for claim C1: the string after
replacing every letter o or O with the digit 0 and removing all whitespace
(no trim step is mentioned there). -/
def specNormalize (s : String) : String :=
  stripWS (replaceO s)

/-! ### Trim is the identity after whitespace removal -/

lemma dropWhile_eq_self_of_forall_false {p : Char → Bool} :
    ∀ l : List Char, (∀ c ∈ l, p c = false) → List.dropWhile p l = l := by
  intro l h
  cases l with
  | nil => rfl
  | cons a l =>
    have ha : p a = false := h a (by simp)
    simp [List.dropWhile, ha]

lemma jsTrim_stripWS (s : String) : jsTrim (stripWS s) = stripWS s := by
  unfold jsTrim stripWS
  have hmem : ∀ c ∈ s.data.filter (fun c => !jsWhitespace c), jsWhitespace c = false := by
    intro c hc
    have := List.of_mem_filter hc
    simpa using this
  rw [dropWhile_eq_self_of_forall_false _ hmem]
  rw [dropWhile_eq_self_of_forall_false _ (by intro c hc; exact hmem c (by simpa using hc))]
  simp

lemma preprocessText_eq_specNormalize (s : String) :
    preprocessText s = specNormalize s := by
  unfold preprocessText specNormalize
  exact jsTrim_stripWS (replaceO s)

/-! ## Room lookup (`getRoomId`, lines 103–130) -/

/-- Embeds `getRoomId` (lines 103–130): the fixed 11-entry switch from room token to
numeric identifier; every other string falls to the `default: return null`
branch. -/
def getRoomId (text : String) : Option Nat :=
  if text = "M01-TD" then some 12673
  else if text = "M02-TD" then some 12981
  else if text = "M03-TP" then some 19393
  else if text = "M05-TP" then some 12680
  else if text = "M06-TP" then some 43372
  else if text = "M07-TP" then some 12677
  else if text = "M09-TP" then some 12678
  else if text = "M10-TP" then some 12679
  else if text = "M11-TD" then some 12674
  else if text = "M13-TP" then some 62575
  else if text = "M14-TD" then some 13927
  else none

/-- The 11 tokens of the switch, in source order. -/
def knownTokens : List String :=
  ["M01-TD", "M02-TD", "M03-TP", "M05-TP", "M06-TP", "M07-TP",
   "M09-TP", "M10-TP", "M11-TD", "M13-TP", "M14-TD"]

/-! ## Submission client (`sendToApi`, lines 132–175) -/

/-- One entry of the `salle` array of the request body built by `sendToApi`. -/
structure Payload where
  id : Nat
  title : String
  eventColor : String
deriving DecidableEq, Repr

/-- Embeds `text.endsWith(suffix)` on the character lists. -/
def strEndsWith (s suffix : String) : Bool :=
  suffix.data.length ≤ s.data.length &&
    s.data.drop (s.data.length - suffix.data.length) = suffix.data

/-- Embeds the payload entry: id, raw token as title, and the colour picked
by `isTP`, that is by whether the token ends with the suffix `-TP`. -/
def payloadFor (text : String) (id : Nat) : Payload :=
  { id := id
    title := text
    eventColor := if strEndsWith text "-TP" then "#FFFFBF" else "#FFD7B0" }

/-- What the external HTTP client (`Http.post`) delivers back: either a
rejection (network error) or a resolved response carrying a status code and
a `data` field.  `none` stands for an absent/falsy `data` (empty body); a
present `data` records whether it is truthy and whether `Array.isArray`
holds of it. -/
structure ApiData where
  truthy : Bool
  isArray : Bool
deriving DecidableEq, Repr

inductive HttpOutcome where
  | reject
  | resolve (status : Nat) (body : Option ApiData)
deriving DecidableEq, Repr

/-- The component state touched by the submission flow: `isLoading`, `day`,
`calendarEvents`, `isCalendarOpen`.  The component has no error field at
all — no failure is ever surfaced to the UI as state. -/
structure UiState where
  isLoading : Bool
  day : Option ApiData
  calendarEvents : Option ApiData
  isCalendarOpen : Bool
deriving DecidableEq, Repr

/-- Observable actions of one `sendToApi` call: the payload of the issued
`Http.post` if one was issued, and whether an error was logged to the
console. -/
structure SendTrace where
  posted : Option Payload
  logged : Bool
deriving DecidableEq, Repr

/-- Embeds `sendToApi` (lines 132–175).  `setIsLoading(true)` happens first; then
`if (!id) return` (JavaScript `!` is true for `null` and for `0`); then the
payload is built and posted.  A rejection or a falsy `response.data` (the
code throws `Erreur HTTP` on the latter) reaches only the `catch`, which
logs.  `setDay(data)` runs for any truthy body; the calendar opens and
`setIsLoading(false)` runs only when the body is a JavaScript array. -/
def sendToApi (text : String) (out : HttpOutcome) (st : UiState) : UiState × SendTrace :=
  let st := { st with isLoading := true }
  match getRoomId text with
  | none => (st, ⟨none, false⟩)
  | some id =>
    if id = 0 then (st, ⟨none, false⟩)
    else
      let payload := payloadFor text id
      match out with
      | .reject => (st, ⟨some payload, true⟩)
      | .resolve _ none => (st, ⟨some payload, true⟩)
      | .resolve _ (some d) =>
        if !d.truthy then (st, ⟨some payload, true⟩)
        else
          let st := { st with day := some d }
          if d.isArray then
            ({ st with calendarEvents := some d, isCalendarOpen := true, isLoading := false },
             ⟨some payload, false⟩)
          else (st, ⟨some payload, false⟩)

/-- Modelled from the wording of claim C8: the submission fails when the
HTTP POST fails (the request rejects), the response has a non-success
status (outside 2xx), or the body is empty (falsy). -/
def claimFailure : HttpOutcome → Bool
  | .reject => true
  | .resolve status body =>
    !(200 ≤ status && status < 300) ||
      (match body with
       | none => true
       | some d => !d.truthy)

/-- The failure outcomes the code itself detects: a rejected POST, or a
response whose `data` field is absent or falsy — the only condition the
code checks (`!response.data`, thrown as `Erreur HTTP`).  The response
status is read for the error message only and never branched on, so this
set is strictly smaller than the failure set of claim C8. -/
def observedFailure : HttpOutcome → Bool
  | .reject => true
  | .resolve _ none => true
  | .resolve _ (some d) => !d.truthy

/-- The `useEffect` on `extractedText` (lines 35–39): a truthy (non-empty)
`extractedText` invokes `sendToApi`.  The second component is `some tr`
exactly when `sendToApi` was invoked. -/
def extractedTextEffect (text : String) (out : HttpOutcome) (st : UiState) :
    UiState × Option SendTrace :=
  if text = "" then (st, none)
  else
    let r := sendToApi text out st
    (r.1, some r.2)

/-! ## Token extraction from an OCR result (`analyzeFrame`, lines 234–246) -/

/-- The `for (const line of lines)` loop of `analyzeFrame`: preprocess each
line in order and return the first preprocessed line that matches the token
grammar, stopping there. -/
def extractLoop : List String → Option String
  | [] => none
  | l :: ls =>
    let processed := preprocessText l
    if isValidFormat processed then some processed else extractLoop ls

/-- Embeds `text.split` at newline on the character list: cut at every
newline, keeping empty pieces (so the empty string splits to `[""]`, as in
JavaScript). -/
def splitNewlinesAux : List Char → List Char → List String
  | [], acc => [⟨acc.reverse⟩]
  | c :: cs, acc =>
    if c = '\n' then (⟨acc.reverse⟩ : String) :: splitNewlinesAux cs []
    else splitNewlinesAux cs (c :: acc)

def splitNewlines (s : String) : List String :=
  splitNewlinesAux s.data []

/-- Embeds the newline split followed by the first-match loop. -/
def extractToken (text : String) : Option String :=
  extractLoop (splitNewlines text)

/-! ## The analysis loop as a state machine

The mutable analysis state of the component (React state hooks plus the
two refs), with explicit state passing.  `workerAlive` models whether
`workerRef.current` is non-null and `timerActive` whether the 500 ms
interval of `startAnalysis` is still installed. -/

structure AnalysisState where
  isAnalyzing : Bool
  hasValidResult : Bool
  extractedText : String
  attemptCount : Nat
  lastSuccessTimestamp : Nat
  workerAlive : Bool
  timerActive : Bool
  isFrontCamera : Bool
deriving DecidableEq, Repr

/-- The state at component mount: `useState(false)` for the flags,
the empty string for the text, `useRef(Date.now())` and `useRef(0)` for the
two counters (lines 12–19). -/
def initialAnalysisState (mountTime : Nat) : AnalysisState :=
  { isAnalyzing := false
    hasValidResult := false
    extractedText := ""
    attemptCount := 0
    lastSuccessTimestamp := mountTime
    workerAlive := false
    timerActive := false
    isFrontCamera := false }

/-- The environment one timer tick runs in: the current clock value
(`Date.now()`), whether the video and canvas elements are ready (so
`captureFrame` can produce a frame), and what the `recognize` call of the
OCR engine yields on the frame of this tick — `some text` for a recognition
result, `none` when `recognize` throws. -/
structure TickEnv where
  now : Nat
  frameAvailable : Bool
  ocr : Option String
deriving DecidableEq, Repr

/-- The observable actions of one tick of `analyzeLoop`: whether a frame
was captured (`canvas.toDataURL` produced a payload), whether `recognize`
of the OCR engine was invoked, the token written to `extractedText`
(which triggers submission via the `useEffect`) if any, and how many worker
reinitializations ran. -/
structure TickTrace where
  frameCaptured : Bool
  ocrInvoked : Bool
  submitted : Option String
  reinits : Nat
deriving DecidableEq, Repr

def silentTrace : TickTrace :=
  { frameCaptured := false, ocrInvoked := false, submitted := none, reinits := 0 }

/-- Embeds `reinitializeWorker` (lines 198–215), success path: tear down and
recreate the worker, then `lastSuccessRef.current = Date.now()` and
`analysisCountRef.current = 0`. -/
def reinitializeWorker (st : AnalysisState) (now : Nat) : AnalysisState :=
  { st with workerAlive := true, lastSuccessTimestamp := now, attemptCount := 0 }

/-- Embeds `captureFrame` (lines 184–196): returns a frame payload unless a ref is
missing or `hasValidResult` is already set. -/
def captureFrame (st : AnalysisState) (env : TickEnv) : Bool :=
  env.frameAvailable && st.workerAlive && !st.hasValidResult

/-- Embeds `analyzeFrame` (lines 217–251).  Guard, increment of
`analysisCountRef`, the watchdog check `timeSinceLastSuccess > 10000 &&
analysisCountRef.current > 20` (which reinitializes and skips the tick),
then `recognize` and the first-match extraction loop; a throwing
`recognize` is caught and only clears `isAnalyzing`. -/
def analyzeFrame (st : AnalysisState) (env : TickEnv) (frame : Bool) :
    AnalysisState × TickTrace :=
  if !frame || !st.workerAlive || st.hasValidResult then (st, silentTrace)
  else
    let st := { st with attemptCount := st.attemptCount + 1 }
    if env.now - st.lastSuccessTimestamp > 10000 ∧ st.attemptCount > 20 then
      (reinitializeWorker st env.now, { silentTrace with reinits := 1 })
    else
      match env.ocr with
      | none => ({ st with isAnalyzing := false }, { silentTrace with ocrInvoked := true })
      | some text =>
        match extractToken text with
        | some tok =>
          ({ st with extractedText := tok, hasValidResult := true,
                     isAnalyzing := false, lastSuccessTimestamp := env.now },
           { silentTrace with ocrInvoked := true, submitted := some tok })
        | none => (st, { silentTrace with ocrInvoked := true })

/-- One tick of `analyzeLoop` (lines 259–273): a set `hasValidResult`
clears the interval and does nothing else; a missing worker is
reinitialized; then `captureFrame` and, if a frame came back,
`analyzeFrame`. -/
def analyzeLoop (st : AnalysisState) (env : TickEnv) : AnalysisState × TickTrace :=
  if st.hasValidResult then
    ({ st with timerActive := false }, silentTrace)
  else
    let loopReinits := if st.workerAlive then 0 else 1
    let st := if st.workerAlive then st else reinitializeWorker st env.now
    if captureFrame st env then
      let r := analyzeFrame st env true
      (r.1, { r.2 with frameCaptured := true, reinits := loopReinits + r.2.reinits })
    else
      (st, { silentTrace with reinits := loopReinits })

/-- A sequence of timer ticks, collecting the trace of each. -/
def runTicks (st : AnalysisState) : List TickEnv → AnalysisState × List TickTrace
  | [] => (st, [])
  | e :: es =>
    let r := analyzeLoop st e
    let rs := runTicks r.1 es
    (rs.1, r.2 :: rs.2)

/-- Entry of `startAnalysis` (lines 253–257): bail out on a valid result,
otherwise `setIsAnalyzing(true)` and install the interval. -/
def startAnalysisEntry (st : AnalysisState) : AnalysisState :=
  if st.hasValidResult then st
  else { st with isAnalyzing := true, timerActive := true }

/-- Embeds `toggleCamera` (lines 86–94): flip the facing mode and clear
`hasValidResult`, `extractedText`, `isAnalyzing`.  (The deferred
`initializeCamera` call is modelled separately by the camera-event trace.) -/
def toggleCamera (st : AnalysisState) : AnalysisState :=
  { st with isFrontCamera := !st.isFrontCamera
            hasValidResult := false
            extractedText := ""
            isAnalyzing := false }

/-- Embeds `resetAnalysis` (lines 283–291): clear the result, set
`isAnalyzing := true`, reinitialize the worker, then restart the loop. -/
def resetAnalysis (st : AnalysisState) (now : Nat) : AnalysisState :=
  startAnalysisEntry (reinitializeWorker
    { st with hasValidResult := false, extractedText := "", isAnalyzing := true } now)

/-- Embeds the `onClose` handler of the calendar modal (lines 362–375),
restricted to
the analysis-state fields: identical to `resetAnalysis` on those fields
(it additionally closes the modal and clears `day`). -/
def modalCloseReset (st : AnalysisState) (now : Nat) : AnalysisState :=
  startAnalysisEntry (reinitializeWorker
    { st with hasValidResult := false, extractedText := "", isAnalyzing := true } now)

/-! ## Camera stream lifecycle (`stopCurrentStream` / `initializeCamera`,
lines 54–84) -/

/-- A media stream handle: its identity and the identities of its tracks. -/
structure MediaStream where
  id : Nat
  tracks : List Nat
deriving DecidableEq, Repr

/-- The device-facing actions of the camera glue code, in order of
occurrence. -/
inductive CameraEvent where
  | stopTrack (streamId trackId : Nat)
  | requestStream (front : Bool)
deriving DecidableEq, Repr

/-- Embeds `stopCurrentStream` (lines 54–59): `track.stop()` on every track of the
current stream, in order; nothing when no stream is held. -/
def stopCurrentStream : Option MediaStream → List CameraEvent
  | none => []
  | some s => s.tracks.map (fun t => CameraEvent.stopTrack s.id t)

/-- The device-facing event sequence of `initializeCamera` (lines 61–84):
`stopCurrentStream()` runs synchronously first, then
`navigator.mediaDevices.getUserMedia` is awaited. -/
def initializeCameraEvents (cur : Option MediaStream) (front : Bool) : List CameraEvent :=
  stopCurrentStream cur ++ [CameraEvent.requestStream front]

/-- A tick environment on which an analysis attempt fails: the frame is
there, and recognition either throws or yields text with no valid line. -/
def failingEnv (e : TickEnv) : Bool :=
  e.frameAvailable &&
    (match e.ocr with
     | none => true
     | some t => (extractToken t).isNone)

/-! ## Supporting lemmas -/

lemma analyzeLoop_of_hasValidResult (st : AnalysisState) (e : TickEnv)
    (h : st.hasValidResult = true) :
    analyzeLoop st e = ({ st with timerActive := false }, silentTrace) := by
  simp [analyzeLoop, h]

lemma runTicks_of_hasValidResult (st : AnalysisState) (h : st.hasValidResult = true) :
    ∀ envs : List TickEnv,
      (runTicks st envs).1.hasValidResult = true ∧
      ∀ t ∈ (runTicks st envs).2, t = silentTrace := by
  intro envs
  induction envs generalizing st with
  | nil => simpa [runTicks] using h
  | cons e es ih =>
    have hstep := analyzeLoop_of_hasValidResult st e h
    have ih' := ih { st with timerActive := false } (by simpa using h)
    simp only [runTicks, hstep]
    refine ⟨ih'.1, ?_⟩
    intro t ht
    simp only [List.mem_cons] at ht
    rcases ht with rfl | ht
    · rfl
    · exact ih'.2 t ht

lemma analyzeLoop_failing (st : AnalysisState) (e : TickEnv)
    (h1 : st.hasValidResult = false) (h2 : st.workerAlive = true)
    (he : failingEnv e = true) (hc : st.attemptCount + 1 ≤ 20) :
    ∃ st' : AnalysisState,
      analyzeLoop st e =
        (st', { frameCaptured := true, ocrInvoked := true, submitted := none, reinits := 0 }) ∧
      st'.attemptCount = st.attemptCount + 1 ∧
      st'.lastSuccessTimestamp = st.lastSuccessTimestamp ∧
      st'.hasValidResult = false ∧
      st'.workerAlive = true := by
  simp only [failingEnv, Bool.and_eq_true] at he
  obtain ⟨hf, hocr⟩ := he
  have hw : ¬(e.now - st.lastSuccessTimestamp > 10000 ∧ st.attemptCount + 1 > 20) := by
    omega
  cases hcase : e.ocr with
  | none =>
    refine ⟨{ st with attemptCount := st.attemptCount + 1, isAnalyzing := false },
      ?_, by simp, by simp, by simpa using h1, by simpa using h2⟩
    simp [analyzeLoop, captureFrame, analyzeFrame, h1, h2, hf, hcase, hw, silentTrace]
  | some t =>
    rw [hcase] at hocr
    have hex : extractToken t = none := by
      simpa [Option.isNone_iff_eq_none] using hocr
    refine ⟨{ st with attemptCount := st.attemptCount + 1 },
      ?_, by simp, by simp, by simpa using h1, by simpa using h2⟩
    simp [analyzeLoop, captureFrame, analyzeFrame, h1, h2, hf, hcase, hw, hex, silentTrace]

lemma runTicks_failing :
    ∀ (es : List TickEnv) (st : AnalysisState),
      st.hasValidResult = false → st.workerAlive = true →
      (∀ e ∈ es, failingEnv e = true) → st.attemptCount + es.length ≤ 20 →
      (runTicks st es).1.attemptCount = st.attemptCount + es.length ∧
      (runTicks st es).1.lastSuccessTimestamp = st.lastSuccessTimestamp ∧
      (runTicks st es).1.hasValidResult = false ∧
      (runTicks st es).1.workerAlive = true ∧
      ∀ t ∈ (runTicks st es).2,
        t = { frameCaptured := true, ocrInvoked := true, submitted := none, reinits := 0 } := by
  intro es
  induction es with
  | nil =>
    intro st h1 h2 _ _
    simp [runTicks, h1, h2]
  | cons e es ih =>
    intro st h1 h2 hall hc
    have hc1 : st.attemptCount + 1 ≤ 20 := by
      simp only [List.length_cons] at hc
      omega
    obtain ⟨st', hstep, hcount, hlast, hvalid, hworker⟩ :=
      analyzeLoop_failing st e h1 h2 (hall e (by simp)) hc1
    have hall' : ∀ x ∈ es, failingEnv x = true := fun x hx => hall x (by simp [hx])
    have hc' : st'.attemptCount + es.length ≤ 20 := by
      simp only [List.length_cons] at hc
      omega
    have ih' := ih st' hvalid hworker hall' hc'
    simp only [runTicks, hstep]
    refine ⟨?_, ?_, ih'.2.2.1, ih'.2.2.2.1, ?_⟩
    · simp only [List.length_cons]
      omega
    · rw [ih'.2.1, hlast]
    · intro t ht
      simp only [List.mem_cons] at ht
      rcases ht with rfl | ht
      · rfl
      · exact ih'.2.2.2.2 t ht

lemma runTicks_append (st : AnalysisState) (es es' : List TickEnv) :
    runTicks st (es ++ es') =
      ((runTicks (runTicks st es).1 es').1,
       (runTicks st es).2 ++ (runTicks (runTicks st es).1 es').2) := by
  induction es generalizing st with
  | nil => simp [runTicks]
  | cons e es ih => simp [runTicks, ih]

/-- The watchdog tick itself: with the frame available, the count about to
exceed 20 and more than 10 seconds since the last success, the tick
reinitializes once, invokes no recognition, submits nothing, and leaves
`attemptCount = 0` and `lastSuccessTimestamp = now`. -/
lemma analyzeLoop_watchdog (st : AnalysisState) (e : TickEnv)
    (h1 : st.hasValidResult = false) (h2 : st.workerAlive = true)
    (hf : e.frameAvailable = true) (hcnt : st.attemptCount = 20)
    (htime : st.lastSuccessTimestamp + 10000 < e.now) :
    analyzeLoop st e =
      (reinitializeWorker { st with attemptCount := st.attemptCount + 1 } e.now,
       { frameCaptured := true, ocrInvoked := false, submitted := none, reinits := 1 }) := by
  have hw : e.now - st.lastSuccessTimestamp > 10000 ∧ st.attemptCount + 1 > 20 := by
    omega
  simp [analyzeLoop, captureFrame, analyzeFrame, h1, h2, hf, hw, silentTrace]

set_option maxHeartbeats 1000000 in
lemma getRoomId_pos {t : String} {id : Nat} (h : getRoomId t = some id) : 0 < id := by
  unfold getRoomId at h
  split_ifs at h
  all_goals injection h with h
  all_goals omega

lemma getRoomId_none_of_not_mem {t : String} (ht : t ∉ knownTokens) : getRoomId t = none := by
  simp only [knownTokens, List.mem_cons, List.not_mem_nil, or_false] at ht
  push_neg at ht
  obtain ⟨e1, e2, e3, e4, e5, e6, e7, e8, e9, e10, e11⟩ := ht
  simp [getRoomId, e1, e2, e3, e4, e5, e6, e7, e8, e9, e10, e11]

lemma sendToApi_of_none {t : String} (h : getRoomId t = none)
    (out : HttpOutcome) (st : UiState) :
    sendToApi t out st = ({ st with isLoading := true }, ⟨none, false⟩) := by
  simp [sendToApi, h]

lemma sendToApi_posted_of_some {t : String} {id : Nat} (h : getRoomId t = some id)
    (out : HttpOutcome) (st : UiState) :
    (sendToApi t out st).2.posted = some (payloadFor t id) := by
  have hpos : id ≠ 0 := (getRoomId_pos h).ne'
  cases out with
  | reject => simp [sendToApi, h, hpos]
  | resolve status body =>
    cases body with
    | none => simp [sendToApi, h, hpos]
    | some d =>
      by_cases hd : d.truthy <;> by_cases ha : d.isArray <;>
        simp [sendToApi, h, hpos, hd, ha]

lemma sendToApi_of_failure {t : String} {id : Nat} {out : HttpOutcome}
    (h : getRoomId t = some id) (hfail : observedFailure out = true) (st : UiState) :
    sendToApi t out st =
      ({ st with isLoading := true }, ⟨some (payloadFor t id), true⟩) := by
  have hpos : id ≠ 0 := (getRoomId_pos h).ne'
  cases out with
  | reject => simp [sendToApi, h, hpos]
  | resolve status body =>
    cases body with
    | none => simp [sendToApi, h, hpos]
    | some d =>
      have hd : d.truthy = false := by
        simpa [observedFailure] using hfail
      simp [sendToApi, h, hpos, hd]

lemma sendToApi_status_blind (t : String) (status status' : Nat)
    (body : Option ApiData) (st : UiState) :
    sendToApi t (.resolve status body) st = sendToApi t (.resolve status' body) st := by
  cases h : getRoomId t with
  | none => simp [sendToApi, h]
  | some id =>
    by_cases hz : id = 0
    · simp [sendToApi, h, hz]
    · cases body with
      | none => simp [sendToApi, h, hz]
      | some d =>
        by_cases hd : d.truthy <;> by_cases ha : d.isArray <;>
          simp [sendToApi, h, hz, hd, ha]

/-! ## The claims -/

/-- C1: for every string `s`, `isValidFormat (preprocessText s)` is true if
and only if `s`, after replacing every letter o or O with the digit 0 and
removing all whitespace, matches `^M[0-9]{1,2}-T[DP]$`; in particular
`"m01-TP"` yields false (lowercase m is not replaced), `"M0O-TP"` yields
true, `"M123-TD"` yields false (three digits), and `" M5-TP "` yields
true. -/
theorem C1_isValidFormat_preprocess :
    (∀ s : String,
      isValidFormat (preprocessText s) = true ↔
        matchesRoomPattern (specNormalize s).data = true) ∧
    isValidFormat (preprocessText "m01-TP") = false ∧
    isValidFormat (preprocessText "M0O-TP") = true ∧
    isValidFormat (preprocessText "M123-TD") = false ∧
    isValidFormat (preprocessText " M5-TP ") = true := by
  refine ⟨fun s => ?_, by decide, by decide, by decide, by decide⟩
  rw [preprocessText_eq_specNormalize]
  exact Iff.rfl

/-- Instance of C1 at the concrete input `" M5-TP "`. -/
theorem C1_witness :
    matchesRoomPattern (specNormalize " M5-TP ").data = true ∧
    isValidFormat (preprocessText " M5-TP ") = true :=
  ⟨by decide, (C1_isValidFormat_preprocess.1 " M5-TP ").mpr (by decide)⟩

/-- C4: `getRoomId` is a pure total function returning the fixed identifier
for each of exactly eleven known tokens and `none` for every other string;
whenever it returns `none`, `sendToApi` issues no HTTP POST and aborts
silently (nothing logged). -/
theorem C4_getRoomId_total :
    (getRoomId "M01-TD" = some 12673 ∧ getRoomId "M02-TD" = some 12981 ∧
     getRoomId "M03-TP" = some 19393 ∧ getRoomId "M05-TP" = some 12680 ∧
     getRoomId "M06-TP" = some 43372 ∧ getRoomId "M07-TP" = some 12677 ∧
     getRoomId "M09-TP" = some 12678 ∧ getRoomId "M10-TP" = some 12679 ∧
     getRoomId "M11-TD" = some 12674 ∧ getRoomId "M13-TP" = some 62575 ∧
     getRoomId "M14-TD" = some 13927 ∧ knownTokens.length = 11) ∧
    (∀ t : String, t ∉ knownTokens → getRoomId t = none) ∧
    (∀ (t : String) (out : HttpOutcome) (st : UiState),
      getRoomId t = none →
      (sendToApi t out st).2.posted = none ∧ (sendToApi t out st).2.logged = false) := by
  refine ⟨by decide, fun t ht => getRoomId_none_of_not_mem ht, fun t out st h => ?_⟩
  rw [sendToApi_of_none h]
  exact ⟨rfl, rfl⟩

/-- Instance of C4 at the concrete unknown token `"M04-TP"`. -/
theorem C4_witness :
    getRoomId "M04-TP" = none ∧
    (sendToApi "M04-TP" HttpOutcome.reject ⟨false, none, none, false⟩).2.posted = none :=
  ⟨C4_getRoomId_total.2.1 "M04-TP" (by decide),
   (C4_getRoomId_total.2.2 "M04-TP" HttpOutcome.reject ⟨false, none, none, false⟩
     (by decide)).1⟩

/-- C5: for every mapped token, the posted payload embeds the identifier as
`id`, the token as `title`, and `eventColor` `#FFFFBF` when the token ends
in `-TP` and `#FFD7B0` otherwise; in particular `"M03-TP"` gives 19393 with
`#FFFFBF` and `"M11-TD"` gives 12674 with `#FFD7B0`. -/
theorem C5_payload_contents :
    (∀ (t : String) (id : Nat) (out : HttpOutcome) (st : UiState),
      getRoomId t = some id →
      (sendToApi t out st).2.posted = some (payloadFor t id) ∧
      (payloadFor t id).id = id ∧ (payloadFor t id).title = t ∧
      (payloadFor t id).eventColor =
        (if strEndsWith t "-TP" then "#FFFFBF" else "#FFD7B0")) ∧
    (∀ (out : HttpOutcome) (st : UiState),
      (sendToApi "M03-TP" out st).2.posted = some ⟨19393, "M03-TP", "#FFFFBF"⟩) ∧
    (∀ (out : HttpOutcome) (st : UiState),
      (sendToApi "M11-TD" out st).2.posted = some ⟨12674, "M11-TD", "#FFD7B0"⟩) := by
  refine ⟨fun t id out st h => ⟨sendToApi_posted_of_some h out st, rfl, rfl, rfl⟩, ?_, ?_⟩
  · intro out st
    rw [@sendToApi_posted_of_some "M03-TP" 19393 (by decide) out st]
    decide
  · intro out st
    rw [@sendToApi_posted_of_some "M11-TD" 12674 (by decide) out st]
    decide

/-- Instance of C5 at the concrete token `"M03-TP"`. -/
theorem C5_witness :
    getRoomId "M03-TP" = some 19393 ∧
    (sendToApi "M03-TP" HttpOutcome.reject ⟨false, none, none, false⟩).2.posted =
      some (payloadFor "M03-TP" 19393) :=
  ⟨by decide,
   (C5_payload_contents.1 "M03-TP" 19393 HttpOutcome.reject ⟨false, none, none, false⟩
     (by decide)).1⟩

/-- C6: the extraction splits the OCR text on newlines, preprocesses each
line in order, and the first line whose preprocessed form matches the
grammar wins; the result does not depend on the lines after the match, and
`"noise\nM03-TP\nmore noise"` extracts to `"M03-TP"`. -/
theorem C6_first_match_wins :
    (∀ (pre : List String) (l : String) (post : List String),
      (∀ x ∈ pre, isValidFormat (preprocessText x) = false) →
      isValidFormat (preprocessText l) = true →
      extractLoop (pre ++ l :: post) = some (preprocessText l)) ∧
    (∀ (pre : List String) (l : String) (post post' : List String),
      isValidFormat (preprocessText l) = true →
      extractLoop (pre ++ l :: post) = extractLoop (pre ++ l :: post')) ∧
    splitNewlines "noise\nM03-TP\nmore noise" = ["noise", "M03-TP", "more noise"] ∧
    extractToken "noise\nM03-TP\nmore noise" = some "M03-TP" := by
  refine ⟨?_, ?_, by decide, by decide⟩
  · intro pre l post hpre hl
    induction pre with
    | nil => simp [extractLoop, hl]
    | cons p ps ih =>
      have hp := hpre p (by simp)
      simp only [List.cons_append, extractLoop, hp, Bool.false_eq_true, if_false]
      exact ih fun x hx => hpre x (by simp [hx])
  · intro pre l post post' hl
    induction pre with
    | nil => simp [extractLoop, hl]
    | cons p ps ih =>
      by_cases hp : isValidFormat (preprocessText p) <;>
        simp [extractLoop, hp, ih]

/-- Instance of C6 at the lines of `"noise\nM03-TP\nmore noise"`. -/
theorem C6_witness :
    extractLoop (["noise"] ++ "M03-TP" :: ["more noise"]) = some (preprocessText "M03-TP") :=
  C6_first_match_wins.1 ["noise"] "M03-TP" ["more noise"] (by decide) (by decide)

/-- C2: once `hasValidResult` is true, every subsequent timer tick of the
analysis loop captures no frame, invokes no OCR recognition and issues no
submission, and `hasValidResult` stays true, until an explicit reset
(manual reset or modal dismissal) sets it back to false. -/
theorem C2_valid_result_freezes_loop :
    ∀ st : AnalysisState, st.hasValidResult = true →
      (∀ envs : List TickEnv,
        (∀ t ∈ (runTicks st envs).2,
          t.frameCaptured = false ∧ t.ocrInvoked = false ∧ t.submitted = none) ∧
        (runTicks st envs).1.hasValidResult = true) ∧
      (∀ now, (resetAnalysis st now).hasValidResult = false) ∧
      (∀ now, (modalCloseReset st now).hasValidResult = false) := by
  intro st h
  refine ⟨fun envs => ?_, fun now => ?_, fun now => ?_⟩
  · obtain ⟨h1, h2⟩ := runTicks_of_hasValidResult st h envs
    exact ⟨fun t ht => by rw [h2 t ht]; exact ⟨rfl, rfl, rfl⟩, h1⟩
  · simp [resetAnalysis, reinitializeWorker, startAnalysisEntry]
  · simp [modalCloseReset, reinitializeWorker, startAnalysisEntry]

/-- Instance of C2 at a concrete frozen state and two concrete ticks. -/
theorem C2_witness :
    (runTicks ⟨false, true, "M03-TP", 3, 0, true, true, false⟩
        [⟨500, true, some "M03-TP"⟩, ⟨1000, true, none⟩]).1.hasValidResult = true ∧
    (resetAnalysis ⟨false, true, "M03-TP", 3, 0, true, true, false⟩ 42).hasValidResult
      = false := by
  have h := C2_valid_result_freezes_loop ⟨false, true, "M03-TP", 3, 0, true, true, false⟩
    (by decide)
  exact ⟨(h.1 [⟨500, true, some "M03-TP"⟩, ⟨1000, true, none⟩]).2, h.2.1 42⟩

/-- C3: a run of failing analysis attempts that reaches the watchdog bound
(20 prior attempts, more than 10000 ms since the last success) triggers
exactly one reinitialization — the first 20 ticks reinitialize nothing,
the 21st reinitializes once and invokes no recognition on that tick — and
immediately afterwards `attemptCount` is 0 and `lastSuccessTimestamp` is
the current time. -/
theorem C3_watchdog_single_reinit :
    ∀ (st : AnalysisState) (es : List TickEnv) (e : TickEnv),
      st.hasValidResult = false → st.workerAlive = true → st.attemptCount = 0 →
      es.length = 20 → (∀ x ∈ es, failingEnv x = true) →
      e.frameAvailable = true → st.lastSuccessTimestamp + 10000 < e.now →
      (runTicks st (es ++ [e])).2 =
        (runTicks st es).2 ++
          [{ frameCaptured := true, ocrInvoked := false, submitted := none, reinits := 1 }] ∧
      (∀ t ∈ (runTicks st es).2,
        t.reinits = 0 ∧ t.submitted = none ∧ t.ocrInvoked = true) ∧
      (runTicks st (es ++ [e])).1.attemptCount = 0 ∧
      (runTicks st (es ++ [e])).1.lastSuccessTimestamp = e.now ∧
      (runTicks st (es ++ [e])).1.workerAlive = true := by
  intro st es e h1 h2 h0 hlen hall hf htime
  obtain ⟨hcnt, hlast, hvalid, hworker, htr⟩ :=
    runTicks_failing es st h1 h2 hall (by omega)
  have hcnt20 : (runTicks st es).1.attemptCount = 20 := by omega
  have htime20 : (runTicks st es).1.lastSuccessTimestamp + 10000 < e.now := by
    rw [hlast]; exact htime
  have hwd := analyzeLoop_watchdog (runTicks st es).1 e hvalid hworker hf hcnt20 htime20
  have hrun1 : runTicks (runTicks st es).1 [e] =
      (reinitializeWorker
        { (runTicks st es).1 with attemptCount := (runTicks st es).1.attemptCount + 1 } e.now,
       [{ frameCaptured := true, ocrInvoked := false, submitted := none, reinits := 1 }]) := by
    simp [runTicks, hwd]
  have happ := runTicks_append st es [e]
  refine ⟨?_, fun t ht => by rw [htr t ht]; exact ⟨rfl, rfl, rfl⟩, ?_, ?_, ?_⟩
  · rw [happ, hrun1]
  · rw [happ]
    simp only [hrun1, reinitializeWorker]
  · rw [happ]
    simp only [hrun1, reinitializeWorker]
  · rw [happ]
    simp only [hrun1, reinitializeWorker]

/-- Instance of C3: 20 concrete failing ticks, then the watchdog tick at
time 10001. -/
theorem C3_witness :
    (runTicks ⟨true, false, "", 0, 0, true, true, false⟩
        (List.replicate 20 ⟨500, true, some "x"⟩ ++ [⟨10001, true, none⟩])).1.attemptCount
      = 0 ∧
    (runTicks ⟨true, false, "", 0, 0, true, true, false⟩
        (List.replicate 20 ⟨500, true, some "x"⟩ ++ [⟨10001, true, none⟩])).1.lastSuccessTimestamp
      = 10001 ∧
    (runTicks ⟨true, false, "", 0, 0, true, true, false⟩
        (List.replicate 20 ⟨500, true, some "x"⟩ ++ [⟨10001, true, none⟩])).2 =
      (runTicks ⟨true, false, "", 0, 0, true, true, false⟩
        (List.replicate 20 ⟨500, true, some "x"⟩)).2 ++
        [{ frameCaptured := true, ocrInvoked := false, submitted := none, reinits := 1 }] := by
  have h := C3_watchdog_single_reinit ⟨true, false, "", 0, 0, true, true, false⟩
    (List.replicate 20 ⟨500, true, some "x"⟩) ⟨10001, true, none⟩
    (by decide) (by decide) (by decide) (by decide) (by decide) (by decide) (by decide)
  exact ⟨h.2.2.1, h.2.2.2.1, h.1⟩

/-- C7 as stated is false on the code: the camera toggle leaves
`attemptCount` (here 5 ≠ initial 0) and `lastSuccessTimestamp` untouched,
and the manual reset sets `isAnalyzing` to true while its initial value is
false. -/
theorem C7_counterexample :
    (initialAnalysisState 0).attemptCount = 0 ∧
    (initialAnalysisState 0).isAnalyzing = false ∧
    (toggleCamera ⟨true, true, "M03-TP", 5, 777, true, false, false⟩).attemptCount = 5 ∧
    (toggleCamera ⟨true, true, "M03-TP", 5, 777, true, false, false⟩).lastSuccessTimestamp
      = 777 ∧
    (resetAnalysis ⟨true, true, "M03-TP", 5, 777, true, false, false⟩ 999).isAnalyzing
      = true := by
  decide

/-- C7 amended: on camera toggle, `isAnalyzing`, `hasValidResult` and
`extractedText` are restored to their initial values while `attemptCount`
and `lastSuccessTimestamp` are left unchanged; on manual reset and modal
dismissal, `hasValidResult` and `extractedText` are restored,
`attemptCount` is reset to 0 and `lastSuccessTimestamp` to the current
time, and `isAnalyzing` is set to true (not its initial false). -/
theorem C7_resets_amended :
    ∀ (st : AnalysisState) (now : Nat),
      ((toggleCamera st).isAnalyzing = false ∧
       (toggleCamera st).hasValidResult = false ∧
       (toggleCamera st).extractedText = "" ∧
       (toggleCamera st).attemptCount = st.attemptCount ∧
       (toggleCamera st).lastSuccessTimestamp = st.lastSuccessTimestamp) ∧
      ((resetAnalysis st now).hasValidResult = false ∧
       (resetAnalysis st now).extractedText = "" ∧
       (resetAnalysis st now).isAnalyzing = true ∧
       (resetAnalysis st now).attemptCount = 0 ∧
       (resetAnalysis st now).lastSuccessTimestamp = now) ∧
      modalCloseReset st now = resetAnalysis st now := by
  intro st now
  refine ⟨⟨rfl, rfl, rfl, rfl, rfl⟩, ?_, rfl⟩
  simp [resetAnalysis, reinitializeWorker, startAnalysisEntry]

/-- C8 as stated is false on the code: a non-success response (status 500,
in the failure set the claim enumerates) carrying a truthy array body is
processed as success — `sendToApi` on token `"M01-TD"` then sets the
schedule state `day`, opens the calendar, clears `isLoading` to false, and
logs nothing, because the code checks only `!response.data` and never the
status. -/
theorem C8_counterexample :
    claimFailure (HttpOutcome.resolve 500 (some ⟨true, true⟩)) = true ∧
    sendToApi "M01-TD" (HttpOutcome.resolve 500 (some ⟨true, true⟩))
        ⟨false, none, none, false⟩ =
      (⟨false, some ⟨true, true⟩, some ⟨true, true⟩, true⟩,
       ⟨some (payloadFor "M01-TD" 12673), false⟩) := by
  decide

/-- C8 amended: for every submission in which the POST rejects or the
response body is absent or falsy — the only failure conditions the code
detects, via `!response.data` — `sendToApi` only logs and aborts: the
state is the input state with `isLoading` stuck at true, `day`,
`calendarEvents` and `isCalendarOpen` unchanged, and no error surfaced
(the UI state has no error field).  The response status is never
inspected: resolved outcomes with the same body behave identically
whatever their status. -/
theorem C8_failure_amended :
    (∀ (t : String) (id : Nat) (out : HttpOutcome) (st : UiState),
      getRoomId t = some id → observedFailure out = true →
      sendToApi t out st =
        ({ st with isLoading := true }, ⟨some (payloadFor t id), true⟩) ∧
      (sendToApi t out st).1.isLoading = true ∧
      (sendToApi t out st).1.day = st.day ∧
      (sendToApi t out st).1.calendarEvents = st.calendarEvents ∧
      (sendToApi t out st).1.isCalendarOpen = st.isCalendarOpen) ∧
    (∀ (t : String) (status status' : Nat) (body : Option ApiData) (st : UiState),
      sendToApi t (.resolve status body) st = sendToApi t (.resolve status' body) st) := by
  refine ⟨fun t id out st h hfail => ?_, sendToApi_status_blind⟩
  have hres := sendToApi_of_failure h hfail st
  rw [hres]
  exact ⟨rfl, rfl, rfl, rfl, rfl⟩

/-- Instance of the amended C8 at token `"M01-TD"` with a rejected POST. -/
theorem C8_amended_witness :
    sendToApi "M01-TD" HttpOutcome.reject ⟨false, none, none, false⟩ =
      (⟨true, none, none, false⟩, ⟨some (payloadFor "M01-TD" 12673), true⟩) :=
  (C8_failure_amended.1 "M01-TD" 12673 HttpOutcome.reject ⟨false, none, none, false⟩
    (by decide) (by decide)).1

/-- C9: when a previous media stream is held, `initializeCamera` emits the
stop of every track of that stream strictly before its single
`getUserMedia` request: the request is the last event and no event before
it is a request. -/
theorem C9_stop_before_request :
    ∀ (s : MediaStream) (front : Bool),
      initializeCameraEvents (some s) front =
        s.tracks.map (CameraEvent.stopTrack s.id) ++ [CameraEvent.requestStream front] ∧
      (initializeCameraEvents (some s) front).dropLast =
        s.tracks.map (CameraEvent.stopTrack s.id) ∧
      (initializeCameraEvents (some s) front).getLast? =
        some (CameraEvent.requestStream front) ∧
      (∀ t ∈ s.tracks,
        CameraEvent.stopTrack s.id t ∈ (initializeCameraEvents (some s) front).dropLast) ∧
      (∀ ev ∈ (initializeCameraEvents (some s) front).dropLast,
        ∀ f : Bool, ev ≠ CameraEvent.requestStream f) := by
  intro s front
  have h1 : initializeCameraEvents (some s) front =
      s.tracks.map (CameraEvent.stopTrack s.id) ++ [CameraEvent.requestStream front] := rfl
  have h2 : (initializeCameraEvents (some s) front).dropLast =
      s.tracks.map (CameraEvent.stopTrack s.id) := by
    rw [h1]
    exact List.dropLast_concat
  refine ⟨h1, h2, ?_, ?_, ?_⟩
  · rw [h1]
    simp
  · intro t ht
    rw [h2]
    exact List.mem_map_of_mem _ ht
  · intro ev hev f
    rw [h2] at hev
    obtain ⟨x, hx, rfl⟩ := List.mem_map.1 hev
    simp

/-- Instance of C9 at a concrete stream with two tracks. -/
theorem C9_witness :
    initializeCameraEvents (some ⟨7, [1, 2]⟩) true =
      [1, 2].map (CameraEvent.stopTrack 7) ++ [CameraEvent.requestStream true] :=
  (C9_stop_before_request ⟨7, [1, 2]⟩ true).1

/-- C10: for every non-empty string written into `extractedText` whose
`getRoomId` image is null — including the camera-error sentinel — the
effect invokes `sendToApi`, which sets `isLoading` to true and returns
with no payload built and no POST issued, and `isLoading` is not reset on
this path. -/
theorem C10_unmapped_extractedText :
    (∀ (text : String) (out : HttpOutcome) (st : UiState),
      text ≠ "" → getRoomId text = none →
      extractedTextEffect text out st =
        ({ st with isLoading := true }, some ⟨none, false⟩)) ∧
    getRoomId "Erreur d\x27accès à la caméra" = none ∧
    "Erreur d\x27accès à la caméra" ≠ "" := by
  refine ⟨fun text out st hne h => ?_, by decide, by decide⟩
  simp [extractedTextEffect, hne, sendToApi_of_none h]

/-- Instance of C10 at the camera-access-failure sentinel text. -/
theorem C10_witness :
    extractedTextEffect "Erreur d\x27accès à la caméra" HttpOutcome.reject
        ⟨false, none, none, false⟩ =
      (⟨true, none, none, false⟩, some ⟨none, false⟩) :=
  C10_unmapped_extractedText.1 "Erreur d\x27accès à la caméra" HttpOutcome.reject
    ⟨false, none, none, false⟩ (by decide) (by decide)

end EDTIA
